import Mathlib

/-!
Verification of the PinoyFix marketplace backend core: identity, access
control, stalls (geo listing, cascading delete), menu items and reviews.

The Python handlers in `backend/app` are embedded as pure Lean functions
over an explicit database state `DB`.  Machine floats become `ℚ` for stored
coordinates/prices and `ℝ` for computed haversine distances; timestamps
become `Nat` (minutes); DynamoDB tables become lists with keyed
put/get/delete; raised `HTTPException`s become `Except ApiError` results
paired with the (unchanged) database.  Python truthiness tests on optional
form fields (`if name:`, `if any([latitude, longitude, address])`) are kept
exactly: `None`, `0.0` and `""` are falsy.
-/

namespace PinoyFix

/-- Error taxonomy: one constructor per distinct denial kind surfaced by the
handlers (HTTP status plus detail message class). -/
inductive ApiError where
  | NotFound
  | Mismatch
  | Forbidden
  | InvalidInput
  | DuplicateEmail
  | DuplicateReview
  | InvalidRole
  | Unauthenticated
  | InvalidCredentials
deriving DecidableEq, Repr

/-- A user record as stored in `food_stall_finder_users`. -/
structure User where
  user_id : String
  email : String
  full_name : String
  password : String
  user_type : String
  created_at : Nat
  updated_at : Nat
deriving DecidableEq, Repr

/-- A stall location sub-object. -/
structure Location where
  latitude : ℚ
  longitude : ℚ
  address : String
deriving DecidableEq, Repr

/-- A stall record as stored in `food_stall_finder_stalls`. -/
structure Stall where
  stall_id : String
  owner_id : String
  name : String
  description : String
  location : Location
  image_url : String
  created_at : Nat
  updated_at : Nat
deriving DecidableEq, Repr

/-- A menu item record as stored in `food_stall_finder_menu_items`. -/
structure MenuItem where
  item_id : String
  stall_id : String
  name : String
  price : ℚ
  description : String
  category : String
  image_url : String
  created_at : Nat
  updated_at : Nat
deriving DecidableEq, Repr

/-- A review record as stored in `food_stall_finder_reviews`. -/
structure Review where
  review_id : String
  stall_id : String
  user_id : String
  user_name : String
  rating : Int
  comment : String
  created_at : Nat
  updated_at : Nat
deriving DecidableEq, Repr

/-- The four DynamoDB tables, as lists in storage order. -/
structure DB where
  users : List User
  stalls : List Stall
  menu_items : List MenuItem
  reviews : List Review
deriving DecidableEq, Repr

/-- DynamoDB `put_item`: overwrite the record with the same key if present,
otherwise append. -/
def put_by {α : Type} (key : α → String) (l : List α) (x : α) : List α :=
  if l.any (fun y => key y == key x) then
    l.map (fun y => if key y == key x then x else y)
  else
    l ++ [x]

/-- DynamoDB `get_item`: the record with the given key, if any. -/
def get_by {α : Type} (key : α → String) (l : List α) (k : String) : Option α :=
  l.find? (fun y => key y == k)

/-- DynamoDB `delete_item`: remove the record with the given key. -/
def delete_by {α : Type} (key : α → String) (l : List α) (k : String) : List α :=
  l.filter (fun y => key y != k)

/-- Modelled from the spec: the credential-hashing collaborator
(`hash(plaintext) → opaque`); `bcrypt.hashpw` is out of scope, so hashing is
modelled as an injective tagging of the plaintext. -/
def hashpw (plaintext : String) : String := "bcrypt$" ++ plaintext

/-- Modelled from the spec: the credential-hashing collaborator
(`verify(plaintext, opaque) → bool`), matching `bcrypt.checkpw`. -/
def checkpw (plaintext hashed : String) : Bool := hashpw plaintext == hashed

/-- The signing key from `config.settings.SECRET_KEY`. -/
def SECRET_KEY : String := "pinoyfix-secret-key"

/-- Modelled from the spec: a signed token from the token-service
collaborator (`jose.jwt`), carrying the subject claim, the expiry instant
(minutes) and the signing key. -/
structure Jwt where
  sub : String
  exp : Nat
  sig : String
deriving DecidableEq, Repr

/-- `create_access_token` (auth/jwt.py): encode the subject with expiry
`now + expires_delta`, defaulting to 15 minutes, signed with `SECRET_KEY`. -/
def create_access_token (sub : String) (now : Nat) (expires_delta : Option Nat) : Jwt :=
  match expires_delta with
  | some d => { sub := sub, exp := now + d, sig := SECRET_KEY }
  | none => { sub := sub, exp := now + 15, sig := SECRET_KEY }

/-- Modelled from the spec: token verification by the token-service
collaborator — the subject claim when the signature matches the key and the
token is not expired, and an error otherwise. -/
def jwt_decode (t : Jwt) (key : String) (now : Nat) : Option String :=
  if t.sig = key ∧ now < t.exp then some t.sub else none

/-- `get_current_user` (auth/jwt.py): decode the bearer token and resolve
the embedded user id against the users table; any failure is the single
credentials exception (401). -/
def get_current_user (db : DB) (token : Jwt) (now : Nat) : Except ApiError User :=
  match jwt_decode token SECRET_KEY now with
  | none => .error .Unauthenticated
  | some user_id =>
    match get_by User.user_id db.users user_id with
    | none => .error .Unauthenticated
    | some user => .ok user

/-- `get_current_owner` (auth/jwt.py): the resolved user, provided its
`user_type` is `"owner"`; 403 otherwise. -/
def get_current_owner (db : DB) (token : Jwt) (now : Nat) : Except ApiError User :=
  match get_current_user db token now with
  | .error e => .error e
  | .ok current_user =>
    if current_user.user_type ≠ "owner" then .error .Forbidden else .ok current_user

/-- `register_user` (auth/auth.py): scan for an existing user with the same
email (exact, case-sensitive), then validate the role, then persist the new
user with the hashed credential.  `new_id` stands for the generated
`uuid4`, `now` for `datetime.utcnow()`. -/
def register_user (db : DB) (new_id : String) (now : Nat)
    (email full_name password user_type : String) : Except ApiError User × DB :=
  if db.users.filter (fun u => u.email == email) ≠ [] then
    (.error .DuplicateEmail, db)
  else if ¬ (user_type = "owner" ∨ user_type = "customer") then
    (.error .InvalidRole, db)
  else
    let new_user : User :=
      { user_id := new_id, email := email, full_name := full_name,
        password := hashpw password, user_type := user_type,
        created_at := now, updated_at := now }
    (.ok new_user, { db with users := put_by User.user_id db.users new_user })

/-- `login_for_access_token` (auth/auth.py): scan for the first user with
the given email; if none, or if the password check fails, raise the same
401 "Incorrect email or password"; otherwise issue a token for the user id
with a 7-day expiry. -/
def login_for_access_token (db : DB) (now : Nat)
    (username password : String) : Except ApiError Jwt :=
  match db.users.find? (fun u => u.email == username) with
  | none => .error .InvalidCredentials
  | some user =>
    if ¬ checkpw password user.password then .error .InvalidCredentials
    else .ok (create_access_token user.user_id now (some (60 * 24 * 7)))

/-- `calculate_distance` (utils/location.py): great-circle distance in km
between two `(latitude, longitude)` points, haversine on a sphere of
radius 6371 km.  `Real.pi`-based radians conversion mirrors
`math.radians`. -/
noncomputable def calculate_distance (point1 point2 : ℚ × ℚ) : ℝ :=
  let lat1 : ℝ := (point1.1 : ℝ) * Real.pi / 180
  let lon1 : ℝ := (point1.2 : ℝ) * Real.pi / 180
  let lat2 : ℝ := (point2.1 : ℝ) * Real.pi / 180
  let lon2 : ℝ := (point2.2 : ℝ) * Real.pi / 180
  let dlon := lon2 - lon1
  let dlat := lat2 - lat1
  let a := Real.sin (dlat / 2) ^ 2 +
    Real.cos lat1 * Real.cos lat2 * Real.sin (dlon / 2) ^ 2
  let c := 2 * Real.arcsin (Real.sqrt a)
  c * 6371

/-- The distance the stall listing computes for one stall: from the request
center to the stall's stored location. -/
noncomputable def stall_dist (la lo : ℚ) (s : Stall) : ℝ :=
  calculate_distance (la, lo) (s.location.latitude, s.location.longitude)

/-- `create_stall` (stalls/router.py): gated by `get_current_owner`; builds
and persists the new stall.  `image_url` stands for the URL returned by the
object-store collaborator. -/
def create_stall (db : DB) (actor : User) (new_id : String) (now : Nat)
    (name description : String) (latitude longitude : ℚ) (address : String)
    (image_url : String) : Except ApiError Stall × DB :=
  if actor.user_type ≠ "owner" then (.error .Forbidden, db)
  else
    let new_stall : Stall :=
      { stall_id := new_id, owner_id := actor.user_id, name := name,
        description := description,
        location := { latitude := latitude, longitude := longitude, address := address },
        image_url := image_url, created_at := now, updated_at := now }
    (.ok new_stall, { db with stalls := put_by Stall.stall_id db.stalls new_stall })

/-- `get_stalls` (stalls/router.py): scan all stalls; when both `latitude`
and `longitude` query parameters are present, annotate each stall with its
haversine distance from the center, keep those with distance ≤ radius
(FastAPI injects the default 5.0 when the radius parameter is absent), and
sort ascending by distance (`list.sort` is stable, embedded as
`mergeSort`); otherwise return the scan in storage order, unannotated. -/
noncomputable def get_stalls (db : DB) (latitude longitude : Option ℚ)
    (radius : Option ℝ) : List (Stall × Option ℝ) :=
  match latitude, longitude with
  | some la, some lo =>
    let r := radius.getD 5
    let withDist := db.stalls.map (fun s =>
      (s, calculate_distance (la, lo) (s.location.latitude, s.location.longitude)))
    let filtered := withDist.filter (fun p => decide (p.2 ≤ r))
    let sorted := filtered.mergeSort (fun p q => decide (p.2 ≤ q.2))
    sorted.map (fun p => (p.1, some p.2))
  | _, _ => db.stalls.map (fun s => (s, none))

/-- `get_stall` (stalls/router.py): the stall with the given id, 404 when
absent.  Any authenticated actor may read. -/
def get_stall (db : DB) (stall_id : String) : Except ApiError Stall :=
  match get_by Stall.stall_id db.stalls stall_id with
  | none => .error .NotFound
  | some stall => .ok stall

/-- `update_stall` (stalls/router.py): gated by `get_current_owner`; 404 if
the stall is absent, 403 if the actor is not its owner; then each supplied
form field is folded into the record.  `if name:` and
`if any([latitude, longitude, address])` are Python truthiness tests, so an
absent, zero or empty value does not trigger the corresponding update;
inside the location branch the per-component choice uses `is not None`. -/
def update_stall (db : DB) (actor : User) (stall_id : String) (now : Nat)
    (name description : Option String) (latitude longitude : Option ℚ)
    (address : Option String) (image_url : Option String) :
    Except ApiError Stall × DB :=
  if actor.user_type ≠ "owner" then (.error .Forbidden, db)
  else match get_by Stall.stall_id db.stalls stall_id with
  | none => (.error .NotFound, db)
  | some stall =>
    if stall.owner_id ≠ actor.user_id then (.error .Forbidden, db)
    else
      let s1 := { stall with updated_at := now }
      let s2 := match name with
        | some n => if n ≠ "" then { s1 with name := n } else s1
        | none => s1
      let s3 := match description with
        | some d => if d ≠ "" then { s2 with description := d } else s2
        | none => s2
      let anyLoc : Bool := (match latitude with | some x => x != 0 | none => false) ||
        (match longitude with | some y => y != 0 | none => false) ||
        (match address with | some ad => ad != "" | none => false)
      let s4 := if anyLoc then
          { s3 with location :=
            { latitude := latitude.getD s3.location.latitude,
              longitude := longitude.getD s3.location.longitude,
              address := address.getD s3.location.address } }
        else s3
      let s5 := match image_url with
        | some u => { s4 with image_url := u }
        | none => s4
      (.ok s5, { db with stalls := put_by Stall.stall_id db.stalls s5 })

/-- One table deletion performed during a stall-delete cascade, recorded in
issue order. -/
inductive DelEvent where
  | stall (id : String)
  | item (id : String)
  | review (id : String)
deriving DecidableEq, Repr

/-- `delete_stall` (stalls/router.py): gated by `get_current_owner`; 404 if
the stall is absent, 403 if the actor is not its owner; then delete the
stall record, then every menu item whose `stall_id` matches (scan, then
per-item `delete_item` by key), then every matching review likewise.  The
third component records the deletions in the order they are issued. -/
def delete_stall (db : DB) (actor : User) (stall_id : String) :
    Except ApiError Unit × DB × List DelEvent :=
  if actor.user_type ≠ "owner" then (.error .Forbidden, db, [])
  else match get_by Stall.stall_id db.stalls stall_id with
  | none => (.error .NotFound, db, [])
  | some stall =>
    if stall.owner_id ≠ actor.user_id then (.error .Forbidden, db, [])
    else
      let stalls2 := delete_by Stall.stall_id db.stalls stall_id
      let matchedItems := db.menu_items.filter (fun m => m.stall_id == stall_id)
      let items2 := matchedItems.foldl
        (fun acc it => delete_by MenuItem.item_id acc it.item_id) db.menu_items
      let matchedReviews := db.reviews.filter (fun r => r.stall_id == stall_id)
      let reviews2 := matchedReviews.foldl
        (fun acc r => delete_by Review.review_id acc r.review_id) db.reviews
      (.ok (),
        { db with stalls := stalls2, menu_items := items2, reviews := reviews2 },
        DelEvent.stall stall_id ::
          (matchedItems.map (fun m => DelEvent.item m.item_id) ++
           matchedReviews.map (fun r => DelEvent.review r.review_id)))

/-- `create_menu_item` (menu/router.py): gated by `get_current_owner`; 404
if the stall is absent, 403 if the actor is not its owner; then persist the
new item.  No validation is applied to `price`. -/
def create_menu_item (db : DB) (actor : User) (stall_id new_id : String)
    (now : Nat) (name : String) (price : ℚ)
    (description category image_url : String) : Except ApiError MenuItem × DB :=
  if actor.user_type ≠ "owner" then (.error .Forbidden, db)
  else match get_by Stall.stall_id db.stalls stall_id with
  | none => (.error .NotFound, db)
  | some stall =>
    if stall.owner_id ≠ actor.user_id then (.error .Forbidden, db)
    else
      let new_menu_item : MenuItem :=
        { item_id := new_id, stall_id := stall_id, name := name, price := price,
          description := description, category := category,
          image_url := image_url, created_at := now, updated_at := now }
      (.ok new_menu_item,
        { db with menu_items := put_by MenuItem.item_id db.menu_items new_menu_item })

/-- `get_menu_items` (menu/router.py): 404 if the stall is absent; then the
scan filtered by `stall_id` and, when the `category` query parameter is
truthy, by exact category match. -/
def get_menu_items (db : DB) (stall_id : String) (category : Option String) :
    Except ApiError (List MenuItem) :=
  match get_by Stall.stall_id db.stalls stall_id with
  | none => .error .NotFound
  | some _ =>
    match category with
    | some c =>
      if c ≠ "" then
        .ok (db.menu_items.filter (fun m => m.stall_id == stall_id && m.category == c))
      else
        .ok (db.menu_items.filter (fun m => m.stall_id == stall_id))
    | none =>
      .ok (db.menu_items.filter (fun m => m.stall_id == stall_id))

/-- `update_menu_item` (menu/router.py): gated by `get_current_owner`; the
checks run in source order — stall existence (404), stall ownership (403),
item existence (404), item-stall consistency (400) — then each supplied
field is folded in.  `name`, `description`, `category` use truthiness;
`price` uses `is not None`. -/
def update_menu_item (db : DB) (actor : User) (stall_id item_id : String)
    (now : Nat) (name : Option String) (price : Option ℚ)
    (description category image_url : Option String) :
    Except ApiError MenuItem × DB :=
  if actor.user_type ≠ "owner" then (.error .Forbidden, db)
  else match get_by Stall.stall_id db.stalls stall_id with
  | none => (.error .NotFound, db)
  | some stall =>
    if stall.owner_id ≠ actor.user_id then (.error .Forbidden, db)
    else match get_by MenuItem.item_id db.menu_items item_id with
    | none => (.error .NotFound, db)
    | some menu_item =>
      if menu_item.stall_id ≠ stall_id then (.error .Mismatch, db)
      else
        let m1 := { menu_item with updated_at := now }
        let m2 := match name with
          | some n => if n ≠ "" then { m1 with name := n } else m1
          | none => m1
        let m3 := match price with
          | some p => { m2 with price := p }
          | none => m2
        let m4 := match description with
          | some d => if d ≠ "" then { m3 with description := d } else m3
          | none => m3
        let m5 := match category with
          | some c => if c ≠ "" then { m4 with category := c } else m4
          | none => m4
        let m6 := match image_url with
          | some u => { m5 with image_url := u }
          | none => m5
        (.ok m6, { db with menu_items := put_by MenuItem.item_id db.menu_items m6 })

/-- `delete_menu_item` (menu/router.py): same check order as
`update_menu_item`, then delete the item by key. -/
def delete_menu_item (db : DB) (actor : User) (stall_id item_id : String) :
    Except ApiError Unit × DB :=
  if actor.user_type ≠ "owner" then (.error .Forbidden, db)
  else match get_by Stall.stall_id db.stalls stall_id with
  | none => (.error .NotFound, db)
  | some stall =>
    if stall.owner_id ≠ actor.user_id then (.error .Forbidden, db)
    else match get_by MenuItem.item_id db.menu_items item_id with
    | none => (.error .NotFound, db)
    | some menu_item =>
      if menu_item.stall_id ≠ stall_id then (.error .Mismatch, db)
      else
        (.ok (), { db with menu_items := delete_by MenuItem.item_id db.menu_items item_id })

/-- `create_review` (reviews/router.py): 404 if the stall is absent; 403 if
the actor owns the stall (self-review); 400 duplicate if a review by the
same `(stall_id, user_id)` pair exists; 400 invalid if the rating is
outside [1,5]; otherwise persist, snapshotting the actor's display name. -/
def create_review (db : DB) (actor : User) (stall_id new_id : String)
    (now : Nat) (rating : Int) (comment : String) : Except ApiError Review × DB :=
  match get_by Stall.stall_id db.stalls stall_id with
  | none => (.error .NotFound, db)
  | some stall =>
    if stall.owner_id = actor.user_id then (.error .Forbidden, db)
    else if db.reviews.filter
        (fun r => r.stall_id == stall_id && r.user_id == actor.user_id) ≠ [] then
      (.error .DuplicateReview, db)
    else if rating < 1 ∨ rating > 5 then (.error .InvalidInput, db)
    else
      let new_review : Review :=
        { review_id := new_id, stall_id := stall_id, user_id := actor.user_id,
          user_name := actor.full_name, rating := rating, comment := comment,
          created_at := now, updated_at := now }
      (.ok new_review,
        { db with reviews := put_by Review.review_id db.reviews new_review })

/-- `get_reviews` (reviews/router.py): 404 if the stall is absent; then the
scan filtered by `stall_id`. -/
def get_reviews (db : DB) (stall_id : String) : Except ApiError (List Review) :=
  match get_by Stall.stall_id db.stalls stall_id with
  | none => .error .NotFound
  | some _ => .ok (db.reviews.filter (fun r => r.stall_id == stall_id))

/-- `update_review` (reviews/router.py): checks in source order — stall
existence (404), review existence (404), review-stall consistency (400),
authorship (403), rating bounds (400) — then full replace of rating and
comment. -/
def update_review (db : DB) (actor : User) (stall_id review_id : String)
    (now : Nat) (rating : Int) (comment : String) : Except ApiError Review × DB :=
  match get_by Stall.stall_id db.stalls stall_id with
  | none => (.error .NotFound, db)
  | some _ =>
    match get_by Review.review_id db.reviews review_id with
    | none => (.error .NotFound, db)
    | some existing_review =>
      if existing_review.stall_id ≠ stall_id then (.error .Mismatch, db)
      else if existing_review.user_id ≠ actor.user_id then (.error .Forbidden, db)
      else if rating < 1 ∨ rating > 5 then (.error .InvalidInput, db)
      else
        let updated := { existing_review with
          rating := rating, comment := comment, updated_at := now }
        (.ok updated,
          { db with reviews := put_by Review.review_id db.reviews updated })

/-- `delete_review` (reviews/router.py): same checks as `update_review`
except the rating bound, then delete the review by key. -/
def delete_review (db : DB) (actor : User) (stall_id review_id : String) :
    Except ApiError Unit × DB :=
  match get_by Stall.stall_id db.stalls stall_id with
  | none => (.error .NotFound, db)
  | some _ =>
    match get_by Review.review_id db.reviews review_id with
    | none => (.error .NotFound, db)
    | some existing_review =>
      if existing_review.stall_id ≠ stall_id then (.error .Mismatch, db)
      else if existing_review.user_id ≠ actor.user_id then (.error .Forbidden, db)
      else
        (.ok (), { db with reviews := delete_by Review.review_id db.reviews review_id })

/-- Decidable equality of handler results, so concrete runs can be checked
by `decide`. -/
instance {ε α : Type} [DecidableEq ε] [DecidableEq α] : DecidableEq (Except ε α)
  | .error e1, .error e2 =>
    if h : e1 = e2 then .isTrue (h ▸ rfl)
    else .isFalse (fun hc => h (Except.error.inj hc))
  | .error _, .ok _ => .isFalse (fun hc => Except.noConfusion hc)
  | .ok _, .error _ => .isFalse (fun hc => Except.noConfusion hc)
  | .ok x1, .ok x2 =>
    if h : x1 = x2 then .isTrue (h ▸ rfl)
    else .isFalse (fun hc => h (Except.ok.inj hc))

/-! Concrete fixtures used by witnesses and counterexamples. -/

/-- An owner-role user who owns `exStall`. -/
def exOwner1 : User :=
  { user_id := "u1", email := "a@x", full_name := "Alice", password := "h1",
    user_type := "owner", created_at := 0, updated_at := 0 }

/-- An owner-role user who does not own `exStall`. -/
def exOwner2 : User :=
  { user_id := "u2", email := "b@x", full_name := "Bob", password := "h2",
    user_type := "owner", created_at := 0, updated_at := 0 }

/-- A customer-role user. -/
def exCustomer : User :=
  { user_id := "u3", email := "c@x", full_name := "Cara", password := "h3",
    user_type := "customer", created_at := 0, updated_at := 0 }

/-- A stall owned by `exOwner1`. -/
def exStall : Stall :=
  { stall_id := "s1", owner_id := "u1", name := "Stall", description := "Desc",
    location := { latitude := 10, longitude := 20, address := "addr" },
    image_url := "img", created_at := 0, updated_at := 0 }

/-- A database holding the three users and `exStall`, no items, no reviews. -/
def exDB : DB :=
  { users := [exOwner1, exOwner2, exCustomer], stalls := [exStall],
    menu_items := [], reviews := [] }

/-- A second stall, owned by `exOwner2`. -/
def exStall2 : Stall :=
  { stall_id := "s2", owner_id := "u2", name := "Other", description := "E",
    location := { latitude := 1, longitude := 2, address := "z" },
    image_url := "i", created_at := 0, updated_at := 0 }

/-- A database with two stalls, menu items and reviews on both, exercising
the delete cascade. -/
def exDBBig : DB :=
  { users := [exOwner1, exOwner2, exCustomer],
    stalls := [exStall, exStall2],
    menu_items :=
      [{ item_id := "m1", stall_id := "s1", name := "n1", price := 5,
         description := "d", category := "c", image_url := "i",
         created_at := 0, updated_at := 0 },
       { item_id := "m2", stall_id := "s2", name := "n2", price := 6,
         description := "d", category := "c", image_url := "i",
         created_at := 0, updated_at := 0 },
       { item_id := "m3", stall_id := "s1", name := "n3", price := 7,
         description := "d", category := "c", image_url := "i",
         created_at := 0, updated_at := 0 }],
    reviews :=
      [{ review_id := "r1", stall_id := "s1", user_id := "u3",
         user_name := "Cara", rating := 4, comment := "x",
         created_at := 0, updated_at := 0 },
       { review_id := "r2", stall_id := "s2", user_id := "u3",
         user_name := "Cara", rating := 5, comment := "y",
         created_at := 0, updated_at := 0 }] }

/-- A user whose stored credential is the model hash of `"pw1"`, for
authentication scenarios. -/
def exUserAuth : User :=
  { user_id := "u1", email := "a@x", full_name := "Alice",
    password := hashpw "pw1", user_type := "owner",
    created_at := 0, updated_at := 0 }

/-- A database holding only `exUserAuth`. -/
def exDBAuth : DB :=
  { users := [exUserAuth], stalls := [], menu_items := [], reviews := [] }

/-! Helper lemmas about the keyed-table model. -/

theorem find?_map_replace {α : Type} (key : α → String) (x : α) (p : α → Bool)
    (hx : p x = true) :
    ∀ (l : List α), l.any (fun y => key y == key x) = true →
      (∀ y ∈ l, key y ≠ key x → p y = false) →
      (l.map (fun y => if key y == key x then x else y)).find? p = some x := by
  intro l
  induction l with
  | nil => intro h; simp at h
  | cons a t ih =>
    intro h hl
    simp only [List.map_cons]
    by_cases ha : (key a == key x) = true
    · rw [if_pos ha]
      exact List.find?_cons_of_pos _ hx
    · have hpa : p a = false := hl a (by simp) (by simpa using ha)
      rw [if_neg ha, List.find?_cons_of_neg _ (by simp [hpa])]
      apply ih
      · simpa [List.any_cons, ha] using h
      · intro y hy hky
        exact hl y (List.mem_cons_of_mem a hy) hky

theorem find?_put_by {α : Type} (key : α → String) (l : List α) (x : α)
    (p : α → Bool) (hx : p x = true)
    (hl : ∀ y ∈ l, key y ≠ key x → p y = false) :
    (put_by key l x).find? p = some x := by
  unfold put_by
  by_cases h : l.any (fun y => key y == key x) = true
  · rw [if_pos h]
    exact find?_map_replace key x p hx l h hl
  · rw [if_neg h]
    have hnone : l.find? p = none := by
      rw [List.find?_eq_none]
      intro y hy
      have hk : key y ≠ key x := by
        intro e
        exact h (List.any_eq_true.mpr ⟨y, hy, by simp [e]⟩)
      simp [hl y hy hk]
    simp [List.find?_append, hnone, hx]

theorem mem_put_by {α : Type} [DecidableEq α] (key : α → String)
    (l : List α) (x : α) : x ∈ put_by key l x := by
  apply List.mem_of_find?_eq_some (p := fun y => y == x)
  apply find?_put_by key l x _ (by simp)
  intro y _ hk
  cases hyx : (y == x) with
  | true => exact absurd (congrArg key (by simpa using hyx)) hk
  | false => rfl

theorem mem_foldl_delete_by {α β : Type} (key : α → String) (kf : β → String)
    (ms : List β) (init : List α) (x : α) :
    (x ∈ ms.foldl (fun acc it => delete_by key acc (kf it)) init) ↔
      (x ∈ init ∧ ∀ it ∈ ms, key x ≠ kf it) := by
  induction ms generalizing init with
  | nil => simp
  | cons m t ih =>
    simp only [List.foldl_cons]
    rw [ih]
    simp only [delete_by, List.mem_filter, bne_iff_ne, ne_eq,
      List.forall_mem_cons]
    tauto

theorem get_by_delete_by {α : Type} (key : α → String) (l : List α)
    (k : String) : get_by key (delete_by key l k) k = none := by
  rw [get_by, List.find?_eq_none]
  intro y hy
  have := (List.mem_filter.mp hy).2
  simp only [bne_iff_ne, ne_eq] at this
  simp [this]

/-- C7: registration fails with `DuplicateEmail` exactly when some existing
user's email equals the supplied email (case-sensitive exact match over the
full user set); registering the same email twice makes the first call
succeed and the second fail, and the failed call leaves the store
unchanged. -/
theorem register_duplicate_email_semantics
    (db : DB) (id1 id2 : String) (t1 t2 : Nat)
    (email fn1 pw1 ut1 fn2 pw2 ut2 : String)
    (hno : ∀ u ∈ db.users, u.email ≠ email)
    (hrole : ut1 = "owner" ∨ ut1 = "customer") :
    (∀ (db2 : DB) (i : String) (t : Nat) (fn pw ut : String),
        ((register_user db2 i t email fn pw ut).1 = .error .DuplicateEmail ↔
          ∃ u ∈ db2.users, u.email = email)) ∧
    (∃ u, (register_user db id1 t1 email fn1 pw1 ut1).1 = .ok u) ∧
    (register_user (register_user db id1 t1 email fn1 pw1 ut1).2
        id2 t2 email fn2 pw2 ut2).1 = .error .DuplicateEmail ∧
    (register_user (register_user db id1 t1 email fn1 pw1 ut1).2
        id2 t2 email fn2 pw2 ut2).2 = (register_user db id1 t1 email fn1 pw1 ut1).2 := by
  have hfilter : db.users.filter (fun u => u.email == email) = [] := by
    rw [List.filter_eq_nil_iff]
    intro u hu
    simpa using hno u hu
  have hgen : ∀ (db2 : DB) (i : String) (t : Nat) (fn pw ut : String),
      ((register_user db2 i t email fn pw ut).1 = .error .DuplicateEmail ↔
        ∃ u ∈ db2.users, u.email = email) := by
    intro db2 i t fn pw ut
    unfold register_user
    by_cases h : db2.users.filter (fun u => u.email == email) = []
    · rw [if_neg (fun hc => hc h)]
      constructor
      · intro hc
        exfalso
        split at hc <;> simp at hc
      · rintro ⟨u, hu, he⟩
        exfalso
        rw [List.filter_eq_nil_iff] at h
        exact h u hu (by simp [he])
    · rw [if_pos h]
      constructor
      · intro _
        obtain ⟨u, hu⟩ := List.exists_mem_of_ne_nil _ h
        have := List.mem_filter.mp hu
        exact ⟨u, this.1, by simpa using this.2⟩
      · intro _
        rfl
  have hcall : register_user db id1 t1 email fn1 pw1 ut1 =
      (.ok ⟨id1, email, fn1, hashpw pw1, ut1, t1, t1⟩,
        { db with users :=
            put_by User.user_id db.users ⟨id1, email, fn1, hashpw pw1, ut1, t1, t1⟩ }) := by
    unfold register_user
    rw [if_neg (fun hc => hc hfilter), if_neg (not_not_intro hrole)]
  have hmem : ∃ u ∈ (register_user db id1 t1 email fn1 pw1 ut1).2.users,
      u.email = email := by
    rw [hcall]
    exact ⟨_, mem_put_by _ _ _, rfl⟩
  refine ⟨hgen, ⟨_, by rw [hcall]⟩, (hgen _ id2 t2 fn2 pw2 ut2).mpr hmem, ?_⟩
  have hne2 : (register_user db id1 t1 email fn1 pw1 ut1).2.users.filter
      (fun u => u.email == email) ≠ [] := by
    intro he
    rw [List.filter_eq_nil_iff] at he
    obtain ⟨u, hu, hue⟩ := hmem
    exact he u hu (by simp [hue])
  generalize hG : (register_user db id1 t1 email fn1 pw1 ut1).2 = db1 at hne2 ⊢
  unfold register_user
  rw [if_pos hne2]

/-- C7 witness: a concrete run on `exDB` with a fresh email. -/
theorem register_duplicate_email_semantics_witness :
    (∀ (db2 : DB) (i : String) (t : Nat) (fn pw ut : String),
        ((register_user db2 i t "new@x" fn pw ut).1 = .error .DuplicateEmail ↔
          ∃ u ∈ db2.users, u.email = "new@x")) ∧
    (∃ u, (register_user exDB "u9" 1 "new@x" "N" "p" "customer").1 = .ok u) ∧
    (register_user (register_user exDB "u9" 1 "new@x" "N" "p" "customer").2
        "u10" 2 "new@x" "M" "q" "owner").1 = .error .DuplicateEmail ∧
    (register_user (register_user exDB "u9" 1 "new@x" "N" "p" "customer").2
        "u10" 2 "new@x" "M" "q" "owner").2 =
      (register_user exDB "u9" 1 "new@x" "N" "p" "customer").2 :=
  register_duplicate_email_semantics exDB "u9" "u10" 1 2 "new@x" "N" "p"
    "customer" "M" "q" "owner" (by decide) (Or.inr rfl)

/-- C8: the two authentication-failure causes are indistinguishable — a run
where no user matches the email and a run where a user matches but the
password check fails return the same `InvalidCredentials` denial. -/
theorem login_failure_indistinguishable
    (db1 db2 : DB) (t1 t2 : Nat) (e1 p1 e2 p2 : String)
    (h1 : db1.users.find? (fun u => u.email == e1) = none)
    (h2 : ∃ u, db2.users.find? (fun u => u.email == e2) = some u ∧
      checkpw p2 u.password = false) :
    login_for_access_token db1 t1 e1 p1 = .error .InvalidCredentials ∧
    login_for_access_token db2 t2 e2 p2 = .error .InvalidCredentials ∧
    login_for_access_token db1 t1 e1 p1 = login_for_access_token db2 t2 e2 p2 := by
  obtain ⟨u, hu, hchk⟩ := h2
  have ha : login_for_access_token db1 t1 e1 p1 = .error .InvalidCredentials := by
    unfold login_for_access_token
    rw [h1]
  have hb : login_for_access_token db2 t2 e2 p2 = .error .InvalidCredentials := by
    unfold login_for_access_token
    rw [hu]
    simp [hchk]
  exact ⟨ha, hb, ha.trans hb.symm⟩

/-- C8 witness: unknown email vs. wrong password on `exDB` (`exOwner1`'s
stored credential is the hash of `"pw1"`). -/
theorem login_failure_indistinguishable_witness :
    login_for_access_token exDBAuth 9 "nobody@x" "pw" = .error .InvalidCredentials ∧
    login_for_access_token exDBAuth 9 "a@x" "wrong" = .error .InvalidCredentials ∧
    login_for_access_token exDBAuth 9 "nobody@x" "pw" =
      login_for_access_token exDBAuth 9 "a@x" "wrong" :=
  login_failure_indistinguishable exDBAuth exDBAuth 9 9 "nobody@x" "pw" "a@x"
    "wrong" (by decide) ⟨exUserAuth, by decide, by decide⟩

/-- C9: after a successful registration, authenticating with the same email
and password yields a token embedding the new user's id with expiry 7 days
(7·24·60 minutes) from issuance, and resolving that token (any time before
expiry) returns the registered user. -/
theorem register_login_resolve_roundtrip
    (db : DB) (new_id : String) (t_reg t_login t_use : Nat)
    (email fn pw ut : String)
    (hno : ∀ u ∈ db.users, u.email ≠ email)
    (hrole : ut = "owner" ∨ ut = "customer")
    (hvalid : t_use < t_login + 60 * 24 * 7) :
    ∃ (u : User) (tok : Jwt),
      (register_user db new_id t_reg email fn pw ut).1 = .ok u ∧
      u.user_id = new_id ∧
      login_for_access_token (register_user db new_id t_reg email fn pw ut).2
        t_login email pw = .ok tok ∧
      tok.sub = u.user_id ∧
      tok.exp = t_login + 60 * 24 * 7 ∧
      get_current_user (register_user db new_id t_reg email fn pw ut).2
        tok t_use = .ok u := by
  have hfilter : db.users.filter (fun u => u.email == email) = [] := by
    rw [List.filter_eq_nil_iff]
    intro u hu
    simpa using hno u hu
  have hcall : register_user db new_id t_reg email fn pw ut =
      (.ok ⟨new_id, email, fn, hashpw pw, ut, t_reg, t_reg⟩,
        { db with users :=
            put_by User.user_id db.users ⟨new_id, email, fn, hashpw pw, ut, t_reg, t_reg⟩ }) := by
    unfold register_user
    rw [if_neg (fun hc => hc hfilter), if_neg (not_not_intro hrole)]
  refine ⟨_, create_access_token new_id t_login (some (60 * 24 * 7)),
    by rw [hcall], rfl, ?_, rfl, rfl, ?_⟩
  · rw [hcall]
    unfold login_for_access_token
    rw [find?_put_by User.user_id db.users _ _ (by simp)
      (fun y hy _ => by simpa using hno y hy)]
    simp [checkpw]
  · rw [hcall]
    unfold get_current_user jwt_decode create_access_token
    rw [if_pos ⟨rfl, hvalid⟩]
    unfold get_by
    dsimp only
    rw [find?_put_by User.user_id db.users _ _ (by simp)
      (fun y _ hk => by simpa using hk)]

/-- C9 witness: register a customer on `exDB`, log in at minute 100 and
resolve the token at minute 200. -/
theorem register_login_resolve_roundtrip_witness :
    ∃ (u : User) (tok : Jwt),
      (register_user exDB "u9" 1 "new@x" "N" "p" "customer").1 = .ok u ∧
      u.user_id = "u9" ∧
      login_for_access_token (register_user exDB "u9" 1 "new@x" "N" "p" "customer").2
        100 "new@x" "p" = .ok tok ∧
      tok.sub = u.user_id ∧
      tok.exp = 100 + 60 * 24 * 7 ∧
      get_current_user (register_user exDB "u9" 1 "new@x" "N" "p" "customer").2
        tok 200 = .ok u :=
  register_login_resolve_roundtrip exDB "u9" 1 100 200 "new@x" "N" "p"
    "customer" (by decide) (Or.inr rfl) (by omega)

/-- C1 counterexample: `exOwner2` has owner role but does not own `exStall`;
the addressed menu item `"x"` does not exist, yet both update and delete
deny with `Forbidden` (ownership is checked before item existence), and a
customer-role actor is likewise denied with `Forbidden` — not the `NotFound`
the claim requires regardless of role/ownership. -/
theorem menu_missing_item_notfound_cex :
    get_by MenuItem.item_id exDB.menu_items "x" = none ∧
    (update_menu_item exDB exOwner2 "s1" "x" 0 none none none none none).1 =
      .error .Forbidden ∧
    (delete_menu_item exDB exOwner2 "s1" "x").1 = .error .Forbidden ∧
    (update_menu_item exDB exCustomer "s1" "x" 0 none none none none none).1 =
      .error .Forbidden ∧
    ApiError.Forbidden ≠ ApiError.NotFound := by
  decide

/-- C1 (amended): when the addressed menu item does not exist, update and
delete deny with `NotFound` provided the actor has owner role and owns the
addressed (existing) stall; the role and stall-ownership checks run before
the item-existence check, so other actors are denied `Forbidden` instead. -/
theorem menu_missing_item_notfound
    (db : DB) (actor : User) (sid iid : String) (now : Nat)
    (nm : Option String) (pr : Option ℚ) (ds ct im : Option String) (s : Stall)
    (hrole : actor.user_type = "owner")
    (hstall : get_by Stall.stall_id db.stalls sid = some s)
    (hown : s.owner_id = actor.user_id)
    (hitem : get_by MenuItem.item_id db.menu_items iid = none) :
    update_menu_item db actor sid iid now nm pr ds ct im = (.error .NotFound, db) ∧
    delete_menu_item db actor sid iid = (.error .NotFound, db) := by
  unfold update_menu_item delete_menu_item
  rw [hstall, hitem]
  simp [hrole, hown]

/-- C1 witness: the stall owner `exOwner1` addressing the missing item. -/
theorem menu_missing_item_notfound_witness :
    update_menu_item exDB exOwner1 "s1" "x" 0 none none none none none =
      (.error .NotFound, exDB) ∧
    delete_menu_item exDB exOwner1 "s1" "x" = (.error .NotFound, exDB) :=
  menu_missing_item_notfound exDB exOwner1 "s1" "x" 0 none none none none none
    exStall rfl (by decide) rfl (by decide)

/-- C6: any actor whose id differs from an existing stall's owner reference
is denied `Forbidden` on update and delete, and the database (hence the
stall record) is unchanged — whether the denial comes from the role gate or
from the ownership check. -/
theorem stall_write_nonowner_forbidden
    (db : DB) (actor : User) (sid : String) (now : Nat)
    (nm ds : Option String) (la lo : Option ℚ) (ad im : Option String)
    (s : Stall)
    (hstall : get_by Stall.stall_id db.stalls sid = some s)
    (hne : actor.user_id ≠ s.owner_id) :
    update_stall db actor sid now nm ds la lo ad im = (.error .Forbidden, db) ∧
    delete_stall db actor sid = (.error .Forbidden, db, []) := by
  unfold update_stall delete_stall
  rw [hstall]
  by_cases hrole : actor.user_type = "owner"
  · simp [hrole, Ne.symm hne]
  · simp [hrole]

/-- C6 witness: `exOwner2` (id `"u2"`) against `exStall` (owner `"u1"`). -/
theorem stall_write_nonowner_forbidden_witness :
    update_stall exDB exOwner2 "s1" 0 none none none none none none =
      (.error .Forbidden, exDB) ∧
    delete_stall exDB exOwner2 "s1" = (.error .Forbidden, exDB, []) :=
  stall_write_nonowner_forbidden exDB exOwner2 "s1" 0 none none none none none
    none exStall (by decide) (by decide)

/-- C10 counterexample: the stall owner creates a menu item with price −5;
the call succeeds and the stored item carries the negative price — no
validation rejects it, refuting the price ≥ 0 invariant. -/
theorem menu_price_nonneg_cex :
    ((create_menu_item exDB exOwner1 "s1" "m9" 3 "n" (-5) "d" "c" "i").1 =
      .ok ⟨"m9", "s1", "n", -5, "d", "c", "i", 3, 3⟩) ∧
    (⟨"m9", "s1", "n", -5, "d", "c", "i", 3, 3⟩ : MenuItem) ∈
      (create_menu_item exDB exOwner1 "s1" "m9" 3 "n" (-5) "d" "c" "i").2.menu_items ∧
    ((-5 : ℚ) < 0) := by
  decide

/-- C10 (amended): menu-item creation and update persist the supplied price
unchanged — no non-negativity validation exists, so a negative supplied
price yields a stored item with that negative price. -/
theorem menu_price_passthrough
    (db : DB) (actor : User) (sid iid : String) (now : Nat)
    (nm : String) (pr : ℚ) (ds ct im : String)
    (onm ods oct oim : Option String) :
    (∀ m, (create_menu_item db actor sid iid now nm pr ds ct im).1 = .ok m →
      m.price = pr) ∧
    (∀ m, (update_menu_item db actor sid iid now onm (some pr) ods oct oim).1 =
      .ok m → m.price = pr) := by
  constructor
  · intro m h
    unfold create_menu_item at h
    split at h
    · simp at h
    · split at h
      · simp at h
      · split at h
        · simp at h
        · rw [Prod.fst] at h
          cases h
          rfl
  · intro m h
    unfold update_menu_item at h
    split at h
    · simp at h
    · split at h
      · simp at h
      · split at h
        · simp at h
        · split at h
          · simp at h
          · split at h
            · simp at h
            · rw [Prod.fst] at h
              cases h
              cases onm <;> cases ods <;> cases oct <;> cases oim <;>
                simp only [] <;> (repeat' split) <;> rfl

/-- C10 witness: price −5 flows through create and update unchanged on
`exDB`/`exDBBig`. -/
theorem menu_price_passthrough_witness :
    (∀ m, (create_menu_item exDB exOwner1 "s1" "m9" 3 "n" (-5) "d" "c" "i").1 =
      .ok m → m.price = -5) ∧
    (∀ m, (update_menu_item exDB exOwner1 "s1" "m9" 3 none (some (-5))
      none none none).1 = .ok m → m.price = -5) :=
  menu_price_passthrough exDB exOwner1 "s1" "m9" 3 "n" (-5) "d" "c" "i"
    none none none none

/-- C2: an owner deleting their stall succeeds; afterwards the stall is
absent (`get` returns `NotFound`), no surviving menu item or review
references the deleted stall id, and the recorded deletion trace is the
stall first, then the matching menu items, then the matching reviews. -/
theorem delete_stall_cascade
    (db : DB) (actor : User) (sid : String) (s : Stall)
    (hrole : actor.user_type = "owner")
    (hstall : get_by Stall.stall_id db.stalls sid = some s)
    (hown : s.owner_id = actor.user_id) :
    (delete_stall db actor sid).1 = .ok () ∧
    get_stall (delete_stall db actor sid).2.1 sid = .error .NotFound ∧
    (∀ m ∈ (delete_stall db actor sid).2.1.menu_items, m.stall_id ≠ sid) ∧
    (∀ r ∈ (delete_stall db actor sid).2.1.reviews, r.stall_id ≠ sid) ∧
    (delete_stall db actor sid).2.2 =
      DelEvent.stall sid ::
        ((db.menu_items.filter (fun m => m.stall_id == sid)).map
            (fun m => DelEvent.item m.item_id) ++
         (db.reviews.filter (fun r => r.stall_id == sid)).map
            (fun r => DelEvent.review r.review_id)) := by
  have hred : delete_stall db actor sid =
      (.ok (),
        { db with
            stalls := delete_by Stall.stall_id db.stalls sid,
            menu_items := (db.menu_items.filter (fun m => m.stall_id == sid)).foldl
              (fun acc it => delete_by MenuItem.item_id acc it.item_id) db.menu_items,
            reviews := (db.reviews.filter (fun r => r.stall_id == sid)).foldl
              (fun acc r => delete_by Review.review_id acc r.review_id) db.reviews },
        DelEvent.stall sid ::
          ((db.menu_items.filter (fun m => m.stall_id == sid)).map
              (fun m => DelEvent.item m.item_id) ++
           (db.reviews.filter (fun r => r.stall_id == sid)).map
              (fun r => DelEvent.review r.review_id))) := by
    unfold delete_stall
    rw [hstall]
    simp [hrole, hown]
  rw [hred]
  refine ⟨rfl, ?_, ?_, ?_, rfl⟩
  · unfold get_stall
    dsimp only
    rw [get_by_delete_by]
  · intro m hm he
    rw [mem_foldl_delete_by] at hm
    exact hm.2 m (List.mem_filter.mpr ⟨hm.1, by simp [he]⟩) rfl
  · intro r hr he
    rw [mem_foldl_delete_by] at hr
    exact hr.2 r (List.mem_filter.mpr ⟨hr.1, by simp [he]⟩) rfl

/-- C2 witness: `exOwner1` deletes `"s1"` in `exDBBig`; items m1, m3 and
review r1 go, the stall first in the trace. -/
theorem delete_stall_cascade_witness :
    (delete_stall exDBBig exOwner1 "s1").1 = .ok () ∧
    get_stall (delete_stall exDBBig exOwner1 "s1").2.1 "s1" = .error .NotFound ∧
    (∀ m ∈ (delete_stall exDBBig exOwner1 "s1").2.1.menu_items, m.stall_id ≠ "s1") ∧
    (∀ r ∈ (delete_stall exDBBig exOwner1 "s1").2.1.reviews, r.stall_id ≠ "s1") ∧
    (delete_stall exDBBig exOwner1 "s1").2.2 =
      DelEvent.stall "s1" ::
        ((exDBBig.menu_items.filter (fun m => m.stall_id == "s1")).map
            (fun m => DelEvent.item m.item_id) ++
         (exDBBig.reviews.filter (fun r => r.stall_id == "s1")).map
            (fun r => DelEvent.review r.review_id)) :=
  delete_stall_cascade exDBBig exOwner1 "s1" exStall rfl (by decide) rfl

/-- C3: with the addressed stall existing, review creation denies
`Forbidden` to the stall owner; a non-owner with an existing review for the
pair gets `DuplicateReview`; past those checks a rating outside [1,5] gets
`InvalidInput` (as it does on update once its earlier checks pass); and an
in-range rating succeeds and stores the review. -/
theorem review_create_update_checks
    (db : DB) (actor : User) (sid rid : String) (now : Nat)
    (rating : Int) (comment : String) (s : Stall)
    (hstall : get_by Stall.stall_id db.stalls sid = some s) :
    (s.owner_id = actor.user_id →
      create_review db actor sid rid now rating comment = (.error .Forbidden, db)) ∧
    (s.owner_id ≠ actor.user_id →
      (∃ r ∈ db.reviews, r.stall_id = sid ∧ r.user_id = actor.user_id) →
      create_review db actor sid rid now rating comment =
        (.error .DuplicateReview, db)) ∧
    (s.owner_id ≠ actor.user_id →
      (∀ r ∈ db.reviews, ¬(r.stall_id = sid ∧ r.user_id = actor.user_id)) →
      (rating < 1 ∨ rating > 5) →
      create_review db actor sid rid now rating comment =
        (.error .InvalidInput, db)) ∧
    (s.owner_id ≠ actor.user_id →
      (∀ r ∈ db.reviews, ¬(r.stall_id = sid ∧ r.user_id = actor.user_id)) →
      1 ≤ rating → rating ≤ 5 →
      ∃ rv, (create_review db actor sid rid now rating comment).1 = .ok rv ∧
        rv ∈ (create_review db actor sid rid now rating comment).2.reviews ∧
        rv.stall_id = sid ∧ rv.user_id = actor.user_id ∧
        rv.rating = rating ∧ rv.comment = comment) ∧
    (∀ (rvid : String) (ex : Review),
      get_by Review.review_id db.reviews rvid = some ex →
      ex.stall_id = sid → ex.user_id = actor.user_id →
      (rating < 1 ∨ rating > 5) →
      update_review db actor sid rvid now rating comment =
        (.error .InvalidInput, db)) := by
  refine ⟨?_, ?_, ?_, ?_, ?_⟩
  · intro hself
    unfold create_review
    rw [hstall]
    simp [hself]
  · intro hne hdup
    obtain ⟨r, hr, h1, h2⟩ := hdup
    have hfil : db.reviews.filter
        (fun r => r.stall_id == sid && r.user_id == actor.user_id) ≠ [] := by
      intro he
      rw [List.filter_eq_nil_iff] at he
      exact he r hr (by simp [h1, h2])
    unfold create_review
    rw [hstall]
    dsimp only
    rw [if_neg hne, if_pos hfil]
  · intro hne hnodup hbad
    have hfil : db.reviews.filter
        (fun r => r.stall_id == sid && r.user_id == actor.user_id) = [] := by
      rw [List.filter_eq_nil_iff]
      intro r hr hc
      simp only [Bool.and_eq_true, beq_iff_eq] at hc
      exact hnodup r hr hc
    unfold create_review
    rw [hstall]
    dsimp only
    rw [if_neg hne, if_neg (fun hc => hc hfil), if_pos hbad]
  · intro hne hnodup hlo hhi
    have hfil : db.reviews.filter
        (fun r => r.stall_id == sid && r.user_id == actor.user_id) = [] := by
      rw [List.filter_eq_nil_iff]
      intro r hr hc
      simp only [Bool.and_eq_true, beq_iff_eq] at hc
      exact hnodup r hr hc
    have hok : ¬(rating < 1 ∨ rating > 5) := by omega
    unfold create_review
    rw [hstall]
    dsimp only
    rw [if_neg hne, if_neg (fun hc => hc hfil), if_neg hok]
    exact ⟨_, rfl, mem_put_by _ _ _, rfl, rfl, rfl, rfl⟩
  · intro rvid ex hex h1 h2 hbad
    unfold update_review
    rw [hstall]
    dsimp only
    rw [hex]
    dsimp only
    rw [if_neg (not_not_intro h1), if_neg (not_not_intro h2), if_pos hbad]

/-- C3 witness: concrete runs on `exDBBig` (stall `"s1"` owned by `"u1"`,
review `"r1"` by `"u3"`). -/
theorem review_create_update_checks_witness :
    (exStall.owner_id = exOwner1.user_id →
      create_review exDBBig exOwner1 "s1" "r9" 7 3 "c" = (.error .Forbidden, exDBBig)) ∧
    (exStall.owner_id ≠ exOwner1.user_id →
      (∃ r ∈ exDBBig.reviews, r.stall_id = "s1" ∧ r.user_id = exOwner1.user_id) →
      create_review exDBBig exOwner1 "s1" "r9" 7 3 "c" =
        (.error .DuplicateReview, exDBBig)) ∧
    (exStall.owner_id ≠ exOwner1.user_id →
      (∀ r ∈ exDBBig.reviews, ¬(r.stall_id = "s1" ∧ r.user_id = exOwner1.user_id)) →
      ((3 : Int) < 1 ∨ (3 : Int) > 5) →
      create_review exDBBig exOwner1 "s1" "r9" 7 3 "c" =
        (.error .InvalidInput, exDBBig)) ∧
    (exStall.owner_id ≠ exOwner1.user_id →
      (∀ r ∈ exDBBig.reviews, ¬(r.stall_id = "s1" ∧ r.user_id = exOwner1.user_id)) →
      (1 : Int) ≤ 3 → (3 : Int) ≤ 5 →
      ∃ rv, (create_review exDBBig exOwner1 "s1" "r9" 7 3 "c").1 = .ok rv ∧
        rv ∈ (create_review exDBBig exOwner1 "s1" "r9" 7 3 "c").2.reviews ∧
        rv.stall_id = "s1" ∧ rv.user_id = exOwner1.user_id ∧
        rv.rating = 3 ∧ rv.comment = "c") ∧
    (∀ (rvid : String) (ex : Review),
      get_by Review.review_id exDBBig.reviews rvid = some ex →
      ex.stall_id = "s1" → ex.user_id = exOwner1.user_id →
      ((3 : Int) < 1 ∨ (3 : Int) > 5) →
      update_review exDBBig exOwner1 "s1" rvid 7 3 "c" =
        (.error .InvalidInput, exDBBig)) :=
  review_create_update_checks exDBBig exOwner1 "s1" "r9" 7 3 "c" exStall (by decide)

/-- C4 counterexample: `exOwner1` updates `"s1"` supplying only
latitude = 0; Python truthiness skips the location branch, so the stored
latitude stays 10 instead of becoming the supplied 0. -/
theorem stall_latitude_zero_cex :
    (update_stall exDB exOwner1 "s1" 5 none none (some 0) none none none).1 =
      .ok { exStall with updated_at := 5 } ∧
    ({ exStall with updated_at := 5 } : Stall).location.latitude = 10 ∧
    ((10 : ℚ) ≠ 0) := by
  decide

/-- C4 (amended): a partial stall update by the owner supplying only a
nonzero latitude merges it into the existing location: the result carries
the new latitude while longitude and address keep their prior values (a
supplied latitude of 0.0 is falsy in `any([...])` and leaves the whole
location unchanged). -/
theorem stall_latitude_only_update
    (db : DB) (actor : User) (sid : String) (now : Nat) (la : ℚ) (s : Stall)
    (hrole : actor.user_type = "owner")
    (hstall : get_by Stall.stall_id db.stalls sid = some s)
    (hown : s.owner_id = actor.user_id)
    (hla : la ≠ 0) :
    ∃ s2, update_stall db actor sid now none none (some la) none none none =
        (.ok s2, { db with stalls := put_by Stall.stall_id db.stalls s2 }) ∧
      s2.location.latitude = la ∧
      s2.location.longitude = s.location.longitude ∧
      s2.location.address = s.location.address ∧
      s2.name = s.name ∧ s2.description = s.description ∧
      s2.owner_id = s.owner_id ∧ s2.image_url = s.image_url ∧
      s2 ∈ (update_stall db actor sid now none none (some la) none none none).2.stalls := by
  have hred : update_stall db actor sid now none none (some la) none none none =
      (.ok (⟨s.stall_id, s.owner_id, s.name, s.description,
          ⟨la, s.location.longitude, s.location.address⟩,
          s.image_url, s.created_at, now⟩ : Stall),
        (⟨db.users,
          put_by Stall.stall_id db.stalls
            ⟨s.stall_id, s.owner_id, s.name, s.description,
              ⟨la, s.location.longitude, s.location.address⟩,
              s.image_url, s.created_at, now⟩,
          db.menu_items, db.reviews⟩ : DB)) := by
    unfold update_stall
    rw [hstall]
    simp [hrole, hown, hla]
  rw [hred]
  exact ⟨_, rfl, rfl, rfl, rfl, rfl, rfl, rfl, rfl, mem_put_by _ _ _⟩

/-- C4 witness: latitude 7 on `exDB` keeps longitude 20 and address
`"addr"`. -/
theorem stall_latitude_only_update_witness :
    ∃ s2, update_stall exDB exOwner1 "s1" 5 none none (some 7) none none none =
        (.ok s2, { exDB with stalls := put_by Stall.stall_id exDB.stalls s2 }) ∧
      s2.location.latitude = 7 ∧
      s2.location.longitude = exStall.location.longitude ∧
      s2.location.address = exStall.location.address ∧
      s2.name = exStall.name ∧ s2.description = exStall.description ∧
      s2.owner_id = exStall.owner_id ∧ s2.image_url = exStall.image_url ∧
      s2 ∈ (update_stall exDB exOwner1 "s1" 5 none none (some 7) none none
        none).2.stalls :=
  stall_latitude_only_update exDB exOwner1 "s1" 5 7 exStall rfl (by decide)
    rfl (by decide)

/-- C5: with a center supplied, the stall listing returns exactly the
stalls within the radius (default 5 km when the radius parameter is
absent), each annotated with its computed haversine distance, sorted
ascending by distance with ties left in storage order (stable sort); with
no center (either coordinate missing) it returns all stalls in storage
order, unannotated. -/
theorem get_stalls_geo_listing (db : DB) (la lo : ℚ) (radius : Option ℝ) :
    (∀ p ∈ get_stalls db (some la) (some lo) radius,
        p.2 = some (stall_dist la lo p.1) ∧
        stall_dist la lo p.1 ≤ radius.getD 5) ∧
    ((get_stalls db (some la) (some lo) radius).map Prod.fst).Perm
        (db.stalls.filter (fun s => decide (stall_dist la lo s ≤ radius.getD 5))) ∧
    ((get_stalls db (some la) (some lo) radius).map Prod.fst).Pairwise
        (fun a b => stall_dist la lo a ≤ stall_dist la lo b) ∧
    (∀ a b : Stall, [a, b].Sublist db.stalls →
        stall_dist la lo a ≤ stall_dist la lo b →
        stall_dist la lo a ≤ radius.getD 5 →
        stall_dist la lo b ≤ radius.getD 5 →
        [(a, some (stall_dist la lo a)), (b, some (stall_dist la lo b))].Sublist
          (get_stalls db (some la) (some lo) radius)) ∧
    get_stalls db (some la) (some lo) none =
      get_stalls db (some la) (some lo) (some 5) ∧
    (∀ lo2, get_stalls db none lo2 radius = db.stalls.map (fun s => (s, none))) ∧
    (∀ la2, get_stalls db (some la2) none radius =
      db.stalls.map (fun s => (s, none))) := by
  have htrans : ∀ (x y z : Stall × ℝ),
      decide (x.2 ≤ y.2) = true → decide (y.2 ≤ z.2) = true →
      decide (x.2 ≤ z.2) = true := by
    intro x y z hxy hyz
    simp only [decide_eq_true_eq] at hxy hyz ⊢
    exact le_trans hxy hyz
  have htotal : ∀ (x y : Stall × ℝ),
      (decide (x.2 ≤ y.2) || decide (y.2 ≤ x.2)) = true := by
    intro x y
    simp only [Bool.or_eq_true, decide_eq_true_eq]
    exact le_total x.2 y.2
  have hget : get_stalls db (some la) (some lo) radius =
      (((db.stalls.filter
            (fun s => decide (stall_dist la lo s ≤ radius.getD 5))).map
          (fun s => (s, stall_dist la lo s))).mergeSort
        (fun p q => decide (p.2 ≤ q.2))).map (fun p => (p.1, some p.2)) := by
    unfold get_stalls
    dsimp only
    rw [List.filter_map]
    rfl
  have hmemSort : ∀ p ∈ ((db.stalls.filter
        (fun s => decide (stall_dist la lo s ≤ radius.getD 5))).map
      (fun s => (s, stall_dist la lo s))).mergeSort
        (fun p q => decide (p.2 ≤ q.2)), p.2 = stall_dist la lo p.1 := by
    intro p hp
    rw [List.mem_mergeSort, List.mem_map] at hp
    obtain ⟨t, _, rfl⟩ := hp
    rfl
  refine ⟨?_, ?_, ?_, ?_, rfl, fun lo2 => rfl, fun la2 => rfl⟩
  · intro p hp
    rw [hget, List.mem_map] at hp
    obtain ⟨q, hq, rfl⟩ := hp
    have hq2 := hmemSort q hq
    rw [List.mem_mergeSort, List.mem_map] at hq
    obtain ⟨t, ht, rfl⟩ := hq
    have hbound := (List.mem_filter.mp ht).2
    simp only [decide_eq_true_eq] at hbound
    exact ⟨rfl, hbound⟩
  · rw [hget, List.map_map]
    refine List.Perm.trans (List.Perm.map _ (List.mergeSort_perm _ _)) ?_
    rw [List.map_map]
    have hid : List.map
        ((Prod.fst ∘ fun p : Stall × ℝ => ((p.1, some p.2) : Stall × Option ℝ)) ∘
          fun s : Stall => (s, stall_dist la lo s))
        (List.filter (fun s => decide (stall_dist la lo s ≤ radius.getD 5)) db.stalls) =
        List.filter (fun s => decide (stall_dist la lo s ≤ radius.getD 5)) db.stalls :=
      List.map_id'' (fun x => rfl) _
    rw [hid]
  · rw [hget, List.map_map]
    have hsorted := List.sorted_mergeSort htrans htotal
      ((db.stalls.filter
          (fun s => decide (stall_dist la lo s ≤ radius.getD 5))).map
        (fun s => (s, stall_dist la lo s)))
    rw [List.pairwise_map]
    refine List.Pairwise.imp_of_mem ?_ hsorted
    intro p q hp hq hle
    have hp2 := hmemSort p hp
    have hq2 := hmemSort q hq
    simp only [decide_eq_true_eq] at hle
    rw [hp2, hq2] at hle
    exact hle
  · intro a b hab hle hra hrb
    rw [hget]
    have h0 : [a, b].Sublist (db.stalls.filter
        (fun s => decide (stall_dist la lo s ≤ radius.getD 5))) := by
      have hf := hab.filter (fun s => decide (stall_dist la lo s ≤ radius.getD 5))
      simpa [List.filter_cons, hra, hrb] using hf
    have h1 : [(a, stall_dist la lo a), (b, stall_dist la lo b)].Sublist
        ((db.stalls.filter
            (fun s => decide (stall_dist la lo s ≤ radius.getD 5))).map
          (fun s => (s, stall_dist la lo s))) := by
      simpa using h0.map (fun s => (s, stall_dist la lo s))
    have hle2 : (fun p q : Stall × ℝ => decide (p.2 ≤ q.2))
        (a, stall_dist la lo a) (b, stall_dist la lo b) = true := by
      simpa using hle
    have h2 : [(a, stall_dist la lo a), (b, stall_dist la lo b)].Sublist
        (((db.stalls.filter
              (fun s => decide (stall_dist la lo s ≤ radius.getD 5))).map
            (fun s => (s, stall_dist la lo s))).mergeSort
          (fun p q => decide (p.2 ≤ q.2))) :=
      List.pair_sublist_mergeSort htrans htotal hle2 h1
    simpa using h2.map (fun p : Stall × ℝ => (p.1, some p.2))

/-- C5 witness: the listing properties at center (0,0) with no radius
parameter on `exDB`. -/
theorem get_stalls_geo_listing_witness :
    (∀ p ∈ get_stalls exDB (some 0) (some 0) none,
        p.2 = some (stall_dist 0 0 p.1) ∧
        stall_dist 0 0 p.1 ≤ (none : Option ℝ).getD 5) ∧
    ((get_stalls exDB (some 0) (some 0) none).map Prod.fst).Perm
        (exDB.stalls.filter
          (fun s => decide (stall_dist 0 0 s ≤ (none : Option ℝ).getD 5))) ∧
    ((get_stalls exDB (some 0) (some 0) none).map Prod.fst).Pairwise
        (fun a b => stall_dist 0 0 a ≤ stall_dist 0 0 b) ∧
    (∀ a b : Stall, [a, b].Sublist exDB.stalls →
        stall_dist 0 0 a ≤ stall_dist 0 0 b →
        stall_dist 0 0 a ≤ (none : Option ℝ).getD 5 →
        stall_dist 0 0 b ≤ (none : Option ℝ).getD 5 →
        [(a, some (stall_dist 0 0 a)), (b, some (stall_dist 0 0 b))].Sublist
          (get_stalls exDB (some 0) (some 0) none)) ∧
    get_stalls exDB (some 0) (some 0) none =
      get_stalls exDB (some 0) (some 0) (some 5) ∧
    (∀ lo2, get_stalls exDB none lo2 none = exDB.stalls.map (fun s => (s, none))) ∧
    (∀ la2, get_stalls exDB (some la2) none none =
      exDB.stalls.map (fun s => (s, none))) :=
  get_stalls_geo_listing exDB 0 0 none

end PinoyFix
